import Mathlib

set_option autoImplicit false

/-! # Verification of the internet-mcp-server session/transport lifecycle

Shallow embedding of the Vercel request handlers of the repository:

* `src/api/mcp.ts` — the permissive handler (its compiled JavaScript
  duplicate is `src/unnamed/part_000`, with identical logic);
* `src/unnamed/part_001` — the stricter handler variant that gates on the
  POST method and rejects unknown or missing session ids explicitly.

The embedding models the data that the handlers actually manipulate: the
in-memory session registry (a JavaScript `Map` from session id strings to
transport objects), the per-request classification performed by
`getTransport` / the strict handler body, the JSON-RPC error envelopes the
handlers build literally in the source, and the mock response adapter
(`mockRes`). The protocol SDK (`StreamableHTTPServerTransport`,
`McpServer`) is external; a transport object is modelled by its allocation
identity together with the two configuration facts the handlers choose:
whether a `sessionIdGenerator` was supplied (`randomUUID`) and whether an
`onsessioninitialized` callback registering the transport itself was
installed. Handing a request to `transport.handleRequest` is the
`dispatch` outcome. -/

namespace InternetMcp

/-! ## Data model -/

/-- JavaScript string truthiness for an optional string value:
`undefined` and the empty string are falsy, every other string is truthy.
Used for `if (sessionId ...)` and `if (!process.env.BRAVE_API_KEY)`. -/
def truthyStr : Option String → Bool
  | none => false
  | some s => !(s == "")

/-- A `StreamableHTTPServerTransport` instance as far as the handlers
observe it. `tid` is the allocation index of the object and stands for
JavaScript reference identity; `sessionIdGeneratorEnabled` records whether
the constructor option `sessionIdGenerator` was a function (`randomUUID`)
rather than `undefined`; `hasOnSessionInitialized` records whether an
`onsessioninitialized` callback was installed that registers this very
transport in the session registry. -/
structure Transport where
  tid : Nat
  sessionIdGeneratorEnabled : Bool
  hasOnSessionInitialized : Bool
deriving DecidableEq, Repr

instance : Inhabited Transport := ⟨⟨0, false, false⟩⟩

/-- The parsed request body, abstracted by the structural schema checks the
handlers apply to it via the SDK: a body is a structurally valid
InitializeRequest, or a structurally valid ListToolsRequest, or neither
(the two schemas require distinct constant `method` fields, so no body
satisfies both). -/
inductive Body where
  | initMsg
  | listToolsMsg
  | otherMsg
deriving DecidableEq, Repr

/-- `isInitializeRequest(body)` — structural check from the SDK. -/
def isInitializeRequest : Body → Bool
  | .initMsg => true
  | _ => false

/-- `isListToolsRequest(body)` — `ListToolsRequestSchema.safeParse(value).success`. -/
def isListToolsRequest : Body → Bool
  | .listToolsMsg => true
  | _ => false

/-- The inbound request, restricted to the fields the handlers read:
`req.method`, `req.url` (may be `undefined`), `req.query` (the parsed query
object, may be `undefined`; present keys map to string values, possibly
empty), the `mcp-session-id` header (may be absent), and the parsed body. -/
structure Request where
  method : String
  url : Option String
  query : Option (List (String × String))
  sessionId : Option String
  body : Body
deriving DecidableEq, Repr

/-- Process environment: the `BRAVE_API_KEY` variable, possibly unset. -/
structure Env where
  braveApiKey : Option String
deriving DecidableEq, Repr

/-- The body `{id: null, jsonrpc: "2.0", error: {code, message}}` built by
the handlers on every error path. `id = none` models JSON `null`. -/
structure RpcErrorBody where
  id : Option Int
  jsonrpc : String
  code : Int
  message : String
deriving DecidableEq, Repr

/-- What the handler does with the host response, as one terminal outcome:
`preflight` is the OPTIONS branch (`res.status(200).end()` after the CORS
headers); `pong` is `res.status(200).json({message: "pong"})`; `rpcError s b`
is `res.status(s).json(b)` with `b` an error envelope; `dispatch t` means
control was handed to `transport.handleRequest` on transport `t`. -/
inductive HandlerOutcome where
  | preflight
  | pong
  | rpcError (status : Nat) (body : RpcErrorBody)
  | dispatch (t : Transport)
deriving DecidableEq, Repr

/-- Overwrite-or-append update of an association list, the behaviour of
JavaScript `Map.set` (and of property assignment on the `_headers` object
of the mock response). -/
def setEntry {β : Type} : List (String × β) → String → β → List (String × β)
  | [], k, v => [(k, v)]
  | (a, b) :: t, k, v => if a == k then (k, v) :: t else (a, b) :: setEntry t k v

/-- Module state: the `transports` map (session id → transport) and the
next allocation index used to give each constructed transport a distinct
identity. -/
structure St where
  transports : List (String × Transport)
  nextTid : Nat
deriving DecidableEq, Repr

/-- Substring test on character lists: JavaScript `includes`. -/
def occursIn (needle : List Char) : List Char → Bool
  | [] => needle.isEmpty
  | c :: t => needle.isPrefixOf (c :: t) || occursIn needle t

/-- Suffix test on character lists: JavaScript `endsWith`. -/
def suffixCheck (needle : List Char) : List Char → Bool
  | [] => needle.isEmpty
  | c :: t => (needle == c :: t) || suffixCheck needle t

/-- The health-probe condition of every handler variant:
`req.url?.includes('/ping') || req.query?.ping !== undefined`. -/
def isHealthProbe (req : Request) : Bool :=
  (match req.url with
   | none => false
   | some u => occursIn "/ping".data u.data)
  ||
  (match req.query with
   | none => false
   | some q => (q.lookup "ping").isSome)

/-! ## The two handler variants -/

/-- `getTransport(sessionId, body)` from `src/api/mcp.ts` lines 41–72
(identically `src/unnamed/part_000` lines 29–53): reuse a registered
transport when the session id is truthy and present in the map; otherwise,
with no (truthy) session id and a ListToolsRequest body, construct a
one-shot transport with `sessionIdGenerator: undefined`; otherwise
construct a transport with `sessionIdGenerator: randomUUID` and an
`onsessioninitialized` callback that registers the transport. Construction
bumps the allocation index; the registry itself is only written later by
the callback. -/
def getTransport (s : St) (sessionId : Option String) (body : Body) :
    Transport × St :=
  if truthyStr sessionId && (s.transports.lookup (sessionId.getD "")).isSome then
    ((s.transports.lookup (sessionId.getD "")).getD default, s)
  else if !truthyStr sessionId && isListToolsRequest body then
    (⟨s.nextTid, false, false⟩, ⟨s.transports, s.nextTid + 1⟩)
  else
    (⟨s.nextTid, true, true⟩, ⟨s.transports, s.nextTid + 1⟩)

/-- Envelope for the missing-credential branch. -/
def keyMissingEnvelope : RpcErrorBody :=
  ⟨none, "2.0", -32603, "BRAVE_API_KEY environment variable not configured"⟩

/-- Envelope for the non-POST branch of the strict variant. -/
def methodNotAllowedEnvelope : RpcErrorBody :=
  ⟨none, "2.0", -32600, "Method not allowed. Use POST for MCP requests."⟩

/-- Envelope for an unknown session id in the strict variant. -/
def sessionNotFoundEnvelope : RpcErrorBody :=
  ⟨none, "2.0", -32600,
    "Session not found. Serverless functions are stateless - please reinitialize."⟩

/-- Envelope for a sessionless non-initialize request in the strict variant. -/
def missingSessionEnvelope : RpcErrorBody :=
  ⟨none, "2.0", -32600,
    "Missing mcp-session-id header. Send an initialize request first."⟩

/-- The handler of `src/api/mcp.ts` (and `src/unnamed/part_000`), up to the
point where control passes to the SDK: OPTIONS preflight, health probe,
credential check, then `getTransport` and dispatch. Paired with the state
after the synchronous part of the request (registry writes happen only in
the `onsessioninitialized` callback, modelled as a separate step). -/
def mcpHandler (env : Env) (s : St) (req : Request) : HandlerOutcome × St :=
  if req.method == "OPTIONS" then
    (.preflight, s)
  else if isHealthProbe req then
    (.pong, s)
  else if !truthyStr env.braveApiKey then
    (.rpcError 500 keyMissingEnvelope, s)
  else
    let r := getTransport s req.sessionId req.body
    (.dispatch r.1, r.2)

/-- The handler of `src/unnamed/part_001`: OPTIONS preflight, health probe,
credential check, POST-only gate, then inline session classification —
reuse a registered transport; create a session transport (generator plus
registering callback) for a sessionless InitializeRequest; reject an
unknown session id with status 400 and code -32600; reject a sessionless
non-initialize body with status 400 and code -32600. -/
def strictHandler (env : Env) (s : St) (req : Request) : HandlerOutcome × St :=
  if req.method == "OPTIONS" then
    (.preflight, s)
  else if isHealthProbe req then
    (.pong, s)
  else if !truthyStr env.braveApiKey then
    (.rpcError 500 keyMissingEnvelope, s)
  else if !(req.method == "POST") then
    (.rpcError 405 methodNotAllowedEnvelope, s)
  else if truthyStr req.sessionId && (s.transports.lookup (req.sessionId.getD "")).isSome then
    (.dispatch ((s.transports.lookup (req.sessionId.getD "")).getD default), s)
  else if !truthyStr req.sessionId && isInitializeRequest req.body then
    (.dispatch ⟨s.nextTid, true, true⟩, ⟨s.transports, s.nextTid + 1⟩)
  else if truthyStr req.sessionId && !(s.transports.lookup (req.sessionId.getD "")).isSome then
    (.rpcError 400 sessionNotFoundEnvelope, s)
  else
    (.rpcError 400 missingSessionEnvelope, s)

/-! ## The session lifecycle as a transition system

A step is either one synchronous handler run (either variant), or the
firing of the `onsessioninitialized` callback of a previously allocated
transport that was constructed with a session-id generator and the
registering callback. The id delivered to the callback is produced by
`randomUUID`, which the spec treats as collision-free and which never
returns the empty string; both facts appear as preconditions of the
`sessionInit` step. -/

inductive Event where
  | reqPermissive (env : Env) (req : Request)
  | reqStrict (env : Env) (req : Request)
  | sessionInit (t : Transport) (newId : String)
deriving DecidableEq, Repr

inductive Step : St → Event → St → Prop where
  | reqPermissive (env : Env) (req : Request) (s : St) :
      Step s (.reqPermissive env req) (mcpHandler env s req).2
  | reqStrict (env : Env) (req : Request) (s : St) :
      Step s (.reqStrict env req) (strictHandler env s req).2
  | sessionInit (t : Transport) (newId : String) (s : St)
      (hgen : t.sessionIdGeneratorEnabled = true)
      (hcb : t.hasOnSessionInitialized = true)
      (halloc : t.tid < s.nextTid)
      (hne : newId ≠ "")
      (hfresh : s.transports.lookup newId = none) :
      Step s (.sessionInit t newId) ⟨setEntry s.transports newId t, s.nextTid⟩

/-- States reachable from the module-load state: empty `transports` map,
no transport allocated yet. -/
inductive Reachable : St → Prop where
  | base : Reachable ⟨[], 0⟩
  | step {s : St} {e : Event} {s' : St} :
      Reachable s → Step s e s' → Reachable s'

/-- Registry invariant: distinct session ids (each id bound to at most one
transport), and every bound transport was registered by its own
`onsessioninitialized` callback — so it carries a session-id generator and
the callback — under a nonempty `randomUUID` key, and was allocated. -/
def StInv (s : St) : Prop :=
  ((s.transports.map Prod.fst).Nodup) ∧
  ∀ p ∈ s.transports,
    p.1 ≠ "" ∧ p.2.sessionIdGeneratorEnabled = true ∧
    p.2.hasOnSessionInitialized = true ∧ p.2.tid < s.nextTid

/-! ## The response adapter `mockRes`

The handler of `src/api/mcp.ts` wraps the host response `res` in a mock
object before handing it to the transport. The mock keeps its own
`_headers` record (JavaScript object; property assignment overwrites),
mirrors every mutation onto the host response, and marks `headersSent`
on each terminal operation. -/

/-- The wrapped host response (`res`), mirrored observationally: headers
set through the adapter, the status code, and counters for terminal calls
(`json`/`send`/`end`) and streamed `write` chunks. -/
structure HostRes where
  headers : List (String × String)
  statusCode : Nat
  terminalCalls : Nat
  writes : Nat
deriving DecidableEq, Repr

/-- The `mockRes` object literal of `src/api/mcp.ts` lines 118–152
(identically `src/unnamed/part_000` lines 92–126). -/
structure MockRes where
  statusCode : Nat
  headersSent : Bool
  _headers : List (String × String)
  host : HostRes
deriving DecidableEq, Repr

/-- The initial field values of the `mockRes` literal:
`statusCode: 200, headersSent: false, _headers: {}`. -/
def mkMockRes (host : HostRes) : MockRes :=
  ⟨200, false, [], host⟩

/-- `setHeader(name, value)`: record in `_headers` and forward to the host. -/
def MockRes.setHeader (r : MockRes) (n v : String) : MockRes :=
  { r with
    _headers := setEntry r._headers n v,
    host := { r.host with headers := setEntry r.host.headers n v } }

/-- `getHeader(name)`: read back from the adapter record `_headers`. -/
def MockRes.getHeader (r : MockRes) (n : String) : Option String :=
  r._headers.lookup n

/-- `status(code)`: set on both views, returning `this`. -/
def MockRes.status (r : MockRes) (code : Nat) : MockRes :=
  { r with
    statusCode := code,
    host := { r.host with statusCode := code } }

/-- `json(data)`: mark sent, forward terminally to the host. -/
def MockRes.json (r : MockRes) : MockRes :=
  { r with
    headersSent := true,
    host := { r.host with terminalCalls := r.host.terminalCalls + 1 } }

/-- `send(data)`: mark sent, forward terminally to the host. -/
def MockRes.send (r : MockRes) : MockRes :=
  { r with
    headersSent := true,
    host := { r.host with terminalCalls := r.host.terminalCalls + 1 } }

/-- `end(data?)`: mark sent, forward terminally to the host. -/
def MockRes.«end» (r : MockRes) : MockRes :=
  { r with
    headersSent := true,
    host := { r.host with terminalCalls := r.host.terminalCalls + 1 } }

/-- `write(chunk)`: stream a chunk to the host. -/
def MockRes.write (r : MockRes) : MockRes :=
  { r with host := { r.host with writes := r.host.writes + 1 } }

/-- `flushHeaders()`: a no-op, the host flushes implicitly. -/
def MockRes.flushHeaders (r : MockRes) : MockRes := r

/-- Run a sequence of `setHeader` calls through the adapter, in order. -/
def applySetHeaders (r : MockRes) : List (String × String) → MockRes
  | [] => r
  | (n, v) :: rest => applySetHeaders (r.setHeader n v) rest

/-- The value most recently set for name `n` in the call sequence `ops`,
if any. -/
def lastSet (n : String) : List (String × String) → Option String
  | [] => none
  | (k, v) :: rest =>
    match lastSet n rest with
    | some w => some w
    | none => if k = n then some v else none

/-! ## The outermost try/catch

Both handlers wrap classification and dispatch in a try/catch whose catch
block logs the fault and sends the 500 internal-error envelope only when
`res.headersSent` is still false. -/

/-- One terminal send already performed on, or recorded against, the host
response stream. -/
structure SendRec where
  status : Nat
  body : RpcErrorBody
deriving DecidableEq, Repr

/-- The host response stream as observed by the catch block:
whether headers were already flushed to the client, and the terminal
sends performed so far. -/
structure ResStream where
  headersSent : Bool
  sends : List SendRec
deriving DecidableEq, Repr

/-- `res.status(status).json(body)`: one terminal send; afterwards
`headersSent` is true. -/
def ResStream.sendJson (r : ResStream) (status : Nat) (body : RpcErrorBody) :
    ResStream :=
  ⟨true, r.sends ++ [⟨status, body⟩]⟩

/-- The catch block of `src/api/mcp.ts` lines 155–164 and of
`src/unnamed/part_001` lines 124–134: log the fault, and only if
`res.headersSent` is false send `res.status(500).json({id: null,
jsonrpc: "2.0", error: {code: -32603, message}})`. The strict variant
interpolates the fault text into the message, the permissive variant uses
the fixed string; the `msg` argument covers both. -/
def catchFault (r : ResStream) (msg : String) : ResStream :=
  if !r.headersSent then r.sendJson 500 ⟨none, "2.0", -32603, msg⟩ else r

/-! ## Concrete fixtures for the witnesses -/

/-- A configured environment. -/
def wEnv : Env := ⟨some "key"⟩

/-- A sessionless POST with a structurally valid InitializeRequest body. -/
def wInitReq : Request := ⟨"POST", some "/api/mcp", some [], none, .initMsg⟩

/-- The transport allocated by the first strict-handler request:
allocation index 0, generator and registering callback installed. -/
def wTransport : Transport := ⟨0, true, true⟩

/-- The id `randomUUID` delivered to the completion callback. -/
def wSid : String := "3fa85f64-5717-4562-b3fc-2c963f66afa6"

/-- The state after the handshake completed: one registered session. -/
def wReg : St := ⟨[(wSid, wTransport)], 1⟩

/-- A follow-up POST carrying the minted session id. -/
def wReuseReq : Request := ⟨"POST", some "/api/mcp", some [], some wSid, .otherMsg⟩

/-- A POST carrying a session id that is in no registry, with a
structurally valid InitializeRequest body. -/
def cexStaleReq : Request :=
  ⟨"POST", some "/api/mcp", some [], some "stale-session-id", .initMsg⟩

/-- The outcome is a protocol-rejection envelope with code -32600. -/
def isRejection32600 : HandlerOutcome → Bool
  | .rpcError _ b => b.code == -32600
  | _ => false

/-! ## Association-list facts about `setEntry` and `List.lookup` -/

theorem beq_false_of_ne {a b : String} (h : a ≠ b) : (a == b) = false := by
  cases hb : a == b
  · rfl
  · exact absurd (eq_of_beq hb) h

theorem lookup_cons_self {β : Type} (a : String) (b : β) (t : List (String × β)) :
    ((a, b) :: t).lookup a = some b := by
  simp only [List.lookup, beq_self_eq_true]

theorem lookup_setEntry {β : Type} (l : List (String × β)) (k : String) (v : β)
    (n : String) :
    (setEntry l k v).lookup n = if n = k then some v else l.lookup n := by
  induction l with
  | nil =>
    by_cases h : n = k
    · subst h
      simp [setEntry, List.lookup]
    · simp only [setEntry, List.lookup, beq_false_of_ne h, if_neg h]
  | cons p t ih =>
    obtain ⟨a, b⟩ := p
    by_cases hak : a = k
    · subst hak
      by_cases hna : n = a
      · subst hna
        simp [setEntry, List.lookup]
      · simp only [setEntry, beq_self_eq_true, if_true, List.lookup,
          beq_false_of_ne hna, if_neg hna]
    · have hakb : (a == k) = false := beq_false_of_ne hak
      by_cases hna : n = a
      · subst hna
        have hnk : n ≠ k := hak
        simp only [setEntry, hakb, Bool.false_eq_true, if_false, List.lookup,
          beq_self_eq_true, if_neg hnk]
      · simp only [setEntry, hakb, Bool.false_eq_true, if_false, List.lookup,
          beq_false_of_ne hna, ih]

theorem setEntry_of_lookup_none {β : Type} (l : List (String × β)) (k : String)
    (v : β) (h : l.lookup k = none) :
    setEntry l k v = l ++ [(k, v)] := by
  induction l with
  | nil => simp [setEntry]
  | cons p t ih =>
    obtain ⟨a, b⟩ := p
    by_cases hka : k = a
    · subst hka
      rw [lookup_cons_self] at h
      exact absurd h (by simp)
    · have ht : t.lookup k = none := by
        have := h
        simp only [List.lookup, beq_false_of_ne hka] at this
        exact this
      have hak : (a == k) = false := beq_false_of_ne fun hc => hka hc.symm
      simp only [setEntry, hak, Bool.false_eq_true, if_false, ih ht,
        List.cons_append]

theorem not_mem_keys_of_lookup_none {β : Type} (l : List (String × β))
    (k : String) (h : l.lookup k = none) :
    k ∉ l.map Prod.fst := by
  induction l with
  | nil => simp
  | cons p t ih =>
    obtain ⟨a, b⟩ := p
    by_cases hka : k = a
    · subst hka
      rw [lookup_cons_self] at h
      exact absurd h (by simp)
    · have ht : t.lookup k = none := by
        have := h
        simp only [List.lookup, beq_false_of_ne hka] at this
        exact this
      simpa [hka] using ih ht

theorem mem_of_lookup_some {β : Type} {l : List (String × β)} {k : String}
    {v : β} (h : l.lookup k = some v) : (k, v) ∈ l := by
  induction l with
  | nil => exact absurd h (by simp [List.lookup])
  | cons p t ih =>
    obtain ⟨a, b⟩ := p
    by_cases hka : k = a
    · subst hka
      rw [lookup_cons_self] at h
      obtain rfl : b = v := by injection h
      exact List.mem_cons_self _ _
    · have ht : t.lookup k = some v := by
        have := h
        simp only [List.lookup, beq_false_of_ne hka] at this
        exact this
      exact List.mem_cons_of_mem _ (ih ht)

/-! ## State effects of the synchronous handler code

Neither handler writes the `transports` map synchronously: the only write
is inside the `onsessioninitialized` callback. The handlers may however
allocate fresh transports, so the allocation index can only grow. -/

theorem getTransport_transports (s : St) (sid : Option String) (body : Body) :
    ((getTransport s sid body).2).transports = s.transports := by
  unfold getTransport
  split
  · rfl
  · split <;> rfl

theorem getTransport_nextTid (s : St) (sid : Option String) (body : Body) :
    s.nextTid ≤ ((getTransport s sid body).2).nextTid := by
  unfold getTransport
  split
  · exact Nat.le_refl _
  · split <;> exact Nat.le_succ _

theorem mcpHandler_transports (env : Env) (s : St) (req : Request) :
    ((mcpHandler env s req).2).transports = s.transports := by
  unfold mcpHandler
  split
  · rfl
  split
  · rfl
  split
  · rfl
  exact getTransport_transports s req.sessionId req.body

theorem mcpHandler_nextTid (env : Env) (s : St) (req : Request) :
    s.nextTid ≤ ((mcpHandler env s req).2).nextTid := by
  unfold mcpHandler
  split
  · exact Nat.le_refl _
  split
  · exact Nat.le_refl _
  split
  · exact Nat.le_refl _
  exact getTransport_nextTid s req.sessionId req.body

theorem strictHandler_transports (env : Env) (s : St) (req : Request) :
    ((strictHandler env s req).2).transports = s.transports := by
  unfold strictHandler
  split
  · rfl
  split
  · rfl
  split
  · rfl
  split
  · rfl
  split
  · rfl
  split
  · rfl
  split <;> rfl

theorem strictHandler_nextTid (env : Env) (s : St) (req : Request) :
    s.nextTid ≤ ((strictHandler env s req).2).nextTid := by
  unfold strictHandler
  split
  · exact Nat.le_refl _
  split
  · exact Nat.le_refl _
  split
  · exact Nat.le_refl _
  split
  · exact Nat.le_refl _
  split
  · exact Nat.le_refl _
  split
  · exact Nat.le_succ _
  split <;> exact Nat.le_refl _

/-! ## Preservation of the registry invariant -/

theorem stInv_preserved {s : St} {e : Event} {s' : St}
    (hs : StInv s) (h : Step s e s') : StInv s' := by
  obtain ⟨hnd, hall⟩ := hs
  cases h with
  | reqPermissive env req s =>
    refine ⟨by rw [mcpHandler_transports]; exact hnd, ?_⟩
    intro p hp
    rw [mcpHandler_transports] at hp
    obtain ⟨h1, h2, h3, h4⟩ := hall p hp
    exact ⟨h1, h2, h3, Nat.lt_of_lt_of_le h4 (mcpHandler_nextTid env s req)⟩
  | reqStrict env req s =>
    refine ⟨by rw [strictHandler_transports]; exact hnd, ?_⟩
    intro p hp
    rw [strictHandler_transports] at hp
    obtain ⟨h1, h2, h3, h4⟩ := hall p hp
    exact ⟨h1, h2, h3, Nat.lt_of_lt_of_le h4 (strictHandler_nextTid env s req)⟩
  | sessionInit t newId s hgen hcb halloc hne hfresh =>
    have happ := setEntry_of_lookup_none s.transports newId t hfresh
    constructor
    · show ((setEntry s.transports newId t).map Prod.fst).Nodup
      rw [happ]
      have hnm := not_mem_keys_of_lookup_none s.transports newId hfresh
      simp only [List.map_append, List.map_cons, List.map_nil]
      rw [List.nodup_append]
      refine ⟨hnd, List.nodup_singleton _, ?_⟩
      intro a ha hb
      simp only [List.mem_singleton] at hb
      subst hb
      exact hnm ha
    · intro p hp
      show p.1 ≠ "" ∧ p.2.sessionIdGeneratorEnabled = true ∧
        p.2.hasOnSessionInitialized = true ∧ p.2.tid < s.nextTid
      rw [happ] at hp
      rcases List.mem_append.mp hp with hp | hp
      · exact hall p hp
      · simp only [List.mem_singleton] at hp
        subst hp
        exact ⟨hne, hgen, hcb, halloc⟩

theorem reachable_stInv {s : St} (h : Reachable s) : StInv s := by
  induction h with
  | base => exact ⟨List.nodup_nil, by intro p hp; simp at hp⟩
  | step _ hstep ih => exact stInv_preserved ih hstep

/-! ## Facts about the response adapter -/

theorem getHeader_setHeader (r : MockRes) (k v n : String) :
    (r.setHeader k v).getHeader n = if n = k then some v else r.getHeader n := by
  simp only [MockRes.setHeader, MockRes.getHeader]
  exact lookup_setEntry r._headers k v n

theorem applySetHeaders_getHeader (ops : List (String × String)) (r : MockRes)
    (n : String) :
    (applySetHeaders r ops).getHeader n =
      ((lastSet n ops).elim (r.getHeader n) some) := by
  induction ops generalizing r with
  | nil => rfl
  | cons p rest ih =>
    obtain ⟨k, v⟩ := p
    simp only [applySetHeaders, lastSet, ih]
    cases hrest : lastSet n rest with
    | some w => rfl
    | none =>
      simp only [Option.elim]
      rw [getHeader_setHeader]
      by_cases hnk : n = k
      · subst hnk
        simp
      · have : ¬(k = n) := fun hc => hnk hc.symm
        simp [hnk, this]

/-! ## String facts for the health probe -/

theorem isPrefixOf_self (l : List Char) : l.isPrefixOf l = true := by
  induction l with
  | nil => rfl
  | cons c t ih => simp [List.isPrefixOf, ih]

theorem occursIn_of_suffixCheck (needle hay : List Char)
    (h : suffixCheck needle hay = true) : occursIn needle hay = true := by
  induction hay with
  | nil => simpa [suffixCheck, occursIn] using h
  | cons c t ih =>
    simp only [suffixCheck, Bool.or_eq_true] at h
    rcases h with h | h
    · have heq : needle = c :: t := eq_of_beq h
      subst heq
      simp [occursIn, isPrefixOf_self]
    · simp only [occursIn, Bool.or_eq_true]
      exact Or.inr (ih h)

/-! ## Helper facts shared by the claim theorems -/

theorem isHealthProbe_of_url {req : Request} {u : String} (hu : req.url = some u)
    (h : occursIn "/ping".data u.data = true) : isHealthProbe req = true := by
  simp [isHealthProbe, hu, h]

theorem isHealthProbe_of_query {req : Request} {q : List (String × String)}
    {v : String} (hq : req.query = some q) (h : q.lookup "ping" = some v) :
    isHealthProbe req = true := by
  simp [isHealthProbe, hq, h]

theorem handlers_pong (env : Env) (s : St) (req : Request)
    (hm : (req.method == "OPTIONS") = false)
    (hp : isHealthProbe req = true) :
    mcpHandler env s req = (.pong, s) ∧ strictHandler env s req = (.pong, s) := by
  constructor
  · simp [mcpHandler, hm, hp]
  · simp [strictHandler, hm, hp]

/-- Both handlers do not reach the health probe on OPTIONS, do not reach
the credential check on a health probe, and reject on a missing
credential with the same envelope; shared computation for C4. -/
theorem handlers_missing_key (env : Env) (s : St) (req : Request)
    (hm : (req.method == "OPTIONS") = false)
    (hp : isHealthProbe req = false)
    (hk : truthyStr env.braveApiKey = false) :
    mcpHandler env s req = (.rpcError 500 keyMissingEnvelope, s) ∧
    strictHandler env s req = (.rpcError 500 keyMissingEnvelope, s) := by
  constructor
  · simp [mcpHandler, hm, hp, hk]
  · simp [strictHandler, hm, hp, hk]

theorem reachable_wReg : Reachable wReg := by
  have h1 : Reachable (⟨[], 1⟩ : St) := by
    have hs := Step.reqStrict wEnv wInitReq ⟨[], 0⟩
    have he : (strictHandler wEnv ⟨[], 0⟩ wInitReq).2 = (⟨[], 1⟩ : St) := by decide
    exact Reachable.step Reachable.base (he ▸ hs)
  have hs2 := Step.sessionInit wTransport wSid ⟨[], 1⟩ rfl rfl (by decide)
    (by decide) rfl
  have he2 : (⟨setEntry (⟨[], 1⟩ : St).transports wSid wTransport,
      (⟨[], 1⟩ : St).nextTid⟩ : St) = wReg := by decide
  exact Reachable.step h1 (he2 ▸ hs2)

/-! ## The claims -/

/-- Claim C4: for every request that is not an OPTIONS preflight and not a
health probe, if the BRAVE_API_KEY credential is not configured, the
handler (either variant) responds with status 500 and the envelope
with id null, jsonrpc "2.0" and error code -32603, and the module state —
in particular the session registry — is returned unchanged, so no
session-id extraction, registry access or transport construction has
taken place. -/
theorem claim_C4_missing_credential (env : Env) (s : St) (req : Request)
    (hopts : req.method ≠ "OPTIONS")
    (hping : isHealthProbe req = false)
    (hkey : truthyStr env.braveApiKey = false) :
    mcpHandler env s req =
      (.rpcError 500
        ⟨none, "2.0", -32603,
          "BRAVE_API_KEY environment variable not configured"⟩, s) ∧
    strictHandler env s req =
      (.rpcError 500
        ⟨none, "2.0", -32603,
          "BRAVE_API_KEY environment variable not configured"⟩, s) := by
  have h := handlers_missing_key env s req (beq_false_of_ne hopts) hping hkey
  simpa [keyMissingEnvelope] using h

theorem claim_C4_witness :
    mcpHandler ⟨none⟩ ⟨[], 0⟩ ⟨"POST", some "/api/mcp", some [], none, .initMsg⟩ =
      (.rpcError 500
        ⟨none, "2.0", -32603,
          "BRAVE_API_KEY environment variable not configured"⟩, ⟨[], 0⟩) ∧
    strictHandler ⟨none⟩ ⟨[], 0⟩ ⟨"POST", some "/api/mcp", some [], none, .initMsg⟩ =
      (.rpcError 500
        ⟨none, "2.0", -32603,
          "BRAVE_API_KEY environment variable not configured"⟩, ⟨[], 0⟩) :=
  claim_C4_missing_credential ⟨none⟩ ⟨[], 0⟩
    ⟨"POST", some "/api/mcp", some [], none, .initMsg⟩
    (by decide) (by decide) (by decide)

/-- Claim C5: every GET or POST request with a `ping` query parameter or a
URL ending in the path suffix `/ping` is answered 200 pong by either
handler variant, whatever the credential configuration, with the module
state — in particular the session registry — unchanged. -/
theorem claim_C5_health_probe (env : Env) (s : St) (req : Request)
    (hm : req.method = "GET" ∨ req.method = "POST")
    (hp : (∃ q v, req.query = some q ∧ q.lookup "ping" = some v) ∨
          (∃ u, req.url = some u ∧ suffixCheck "/ping".data u.data = true)) :
    mcpHandler env s req = (.pong, s) ∧ strictHandler env s req = (.pong, s) := by
  have hmb : (req.method == "OPTIONS") = false := by
    rcases hm with hm | hm <;> (rw [hm]; decide)
  have hpb : isHealthProbe req = true := by
    rcases hp with ⟨q, v, hq, hv⟩ | ⟨u, hu, hsuf⟩
    · exact isHealthProbe_of_query hq hv
    · exact isHealthProbe_of_url hu (occursIn_of_suffixCheck _ _ hsuf)
  exact handlers_pong env s req hmb hpb

theorem claim_C5_witness :
    mcpHandler ⟨none⟩ ⟨[], 0⟩ ⟨"GET", some "/api/mcp/ping", some [], none, .otherMsg⟩ =
      (.pong, ⟨[], 0⟩) ∧
    strictHandler ⟨none⟩ ⟨[], 0⟩ ⟨"GET", some "/api/mcp/ping", some [], none, .otherMsg⟩ =
      (.pong, ⟨[], 0⟩) :=
  claim_C5_health_probe ⟨none⟩ ⟨[], 0⟩
    ⟨"GET", some "/api/mcp/ping", some [], none, .otherMsg⟩
    (Or.inl rfl)
    (Or.inr ⟨"/api/mcp/ping", rfl, by decide⟩)

/-- Claim C10: the health probe matches broadly — for every non-OPTIONS
request of any method (DELETE included) whose URL contains `/ping`
anywhere, or whose parsed query object has a `ping` key with any value
(the empty string included), either handler answers 200 pong and returns
the module state — in particular the session registry — unchanged. -/
theorem claim_C10_health_probe_broad (env : Env) (s : St) (req : Request)
    (hm : req.method ≠ "OPTIONS")
    (hp : (∃ u, req.url = some u ∧ occursIn "/ping".data u.data = true) ∨
          (∃ q v, req.query = some q ∧ q.lookup "ping" = some v)) :
    mcpHandler env s req = (.pong, s) ∧ strictHandler env s req = (.pong, s) := by
  have hpb : isHealthProbe req = true := by
    rcases hp with ⟨u, hu, hin⟩ | ⟨q, v, hq, hv⟩
    · exact isHealthProbe_of_url hu hin
    · exact isHealthProbe_of_query hq hv
  exact handlers_pong env s req (beq_false_of_ne hm) hpb

theorem claim_C10_witness :
    mcpHandler ⟨some "key"⟩ ⟨[], 0⟩
        ⟨"DELETE", some "/api/mcp", some [("ping", "")], none, .otherMsg⟩ =
      (.pong, ⟨[], 0⟩) ∧
    strictHandler ⟨some "key"⟩ ⟨[], 0⟩
        ⟨"DELETE", some "/api/mcp", some [("ping", "")], none, .otherMsg⟩ =
      (.pong, ⟨[], 0⟩) :=
  claim_C10_health_probe_broad ⟨some "key"⟩ ⟨[], 0⟩
    ⟨"DELETE", some "/api/mcp", some [("ping", "")], none, .otherMsg⟩
    (by decide)
    (Or.inr ⟨[("ping", "")], "", rfl, rfl⟩)

/-- Claim C6: in the strict handler variant, every request that passed the
preflight, health-probe and credential checks and whose method is not
POST receives status 405 with the envelope with id null, jsonrpc "2.0"
and error code -32600, the state is unchanged, and no transport is ever
dispatched. -/
theorem claim_C6_method_gate (env : Env) (s : St) (req : Request)
    (hopts : req.method ≠ "OPTIONS")
    (hping : isHealthProbe req = false)
    (hkey : truthyStr env.braveApiKey = true)
    (hpost : req.method ≠ "POST") :
    strictHandler env s req =
      (.rpcError 405
        ⟨none, "2.0", -32600, "Method not allowed. Use POST for MCP requests."⟩, s) ∧
    ∀ t : Transport, (strictHandler env s req).1 ≠ .dispatch t := by
  have h : strictHandler env s req = (.rpcError 405 methodNotAllowedEnvelope, s) := by
    simp [strictHandler, beq_false_of_ne hopts, hping, hkey, beq_false_of_ne hpost]
  refine ⟨by simpa [methodNotAllowedEnvelope] using h, ?_⟩
  intro t hc
  rw [h] at hc
  exact absurd hc (by simp [methodNotAllowedEnvelope])

theorem claim_C6_witness :
    strictHandler ⟨some "key"⟩ ⟨[], 0⟩ ⟨"GET", some "/api/mcp", some [], none, .otherMsg⟩ =
      (.rpcError 405
        ⟨none, "2.0", -32600, "Method not allowed. Use POST for MCP requests."⟩, ⟨[], 0⟩) ∧
    ∀ t : Transport,
      (strictHandler ⟨some "key"⟩ ⟨[], 0⟩
        ⟨"GET", some "/api/mcp", some [], none, .otherMsg⟩).1 ≠ .dispatch t :=
  claim_C6_method_gate ⟨some "key"⟩ ⟨[], 0⟩
    ⟨"GET", some "/api/mcp", some [], none, .otherMsg⟩
    (by decide) (by decide) (by decide) (by decide)

/-- Claim C7: for a request without a (truthy) session id whose body is a
structurally valid ListToolsRequest, `getTransport` constructs the
one-shot transport with session-id generation disabled and no
registering callback, the `transports` registry is identical before and
after the classification, and no `sessionInit` step — the only way any
entry is ever added to the registry — can ever fire for that transport,
so no session id is ever minted or registered for the request. -/
theorem claim_C7_stateless_list_tools (s : St) (sid : Option String) (body : Body)
    (hsid : truthyStr sid = false)
    (hbody : isListToolsRequest body = true) :
    getTransport s sid body =
      (⟨s.nextTid, false, false⟩, ⟨s.transports, s.nextTid + 1⟩) ∧
    ((getTransport s sid body).2).transports = s.transports ∧
    ∀ (newId : String) (s₂ : St),
      ¬ Step (getTransport s sid body).2
        (.sessionInit (getTransport s sid body).1 newId) s₂ := by
  have hg : getTransport s sid body =
      (⟨s.nextTid, false, false⟩, ⟨s.transports, s.nextTid + 1⟩) := by
    simp [getTransport, hsid, hbody]
  refine ⟨hg, by rw [hg], ?_⟩
  intro newId s₂ hstep
  rw [hg] at hstep
  cases hstep with
  | sessionInit _ _ _ hgen _ _ _ _ => exact absurd hgen (by simp)

theorem claim_C7_witness :
    getTransport ⟨[], 5⟩ none .listToolsMsg =
      (⟨5, false, false⟩, ⟨[], 6⟩) ∧
    ((getTransport ⟨[], 5⟩ none .listToolsMsg).2).transports = [] ∧
    ∀ (newId : String) (s₂ : St),
      ¬ Step (getTransport ⟨[], 5⟩ none .listToolsMsg).2
        (.sessionInit (getTransport ⟨[], 5⟩ none .listToolsMsg).1 newId) s₂ :=
  claim_C7_stateless_list_tools ⟨[], 5⟩ none .listToolsMsg rfl rfl

/-- Claim C8: the outermost catch block sends the 500 envelope with error
code -32603 exactly once if no response has been sent when the fault is
caught, and performs no send at all if sending had already started; under
the dispatch-path precondition that at most one terminal send happened
before the fault and that `headersSent` is false only when nothing was
sent, every terminal path performs at most one send. -/
theorem claim_C8_fault_single_send (r : ResStream) (msg : String)
    (hflag : r.headersSent = false → r.sends = [])
    (hcount : r.sends.length ≤ 1) :
    (r.headersSent = false →
      catchFault r msg = ⟨true, [⟨500, ⟨none, "2.0", -32603, msg⟩⟩]⟩) ∧
    (r.headersSent = true → catchFault r msg = r) ∧
    (catchFault r msg).sends.length ≤ 1 := by
  cases hb : r.headersSent
  · have hnil : r.sends = [] := hflag hb
    refine ⟨fun _ => ?_, fun hc => absurd hc (by decide), ?_⟩
    · simp [catchFault, ResStream.sendJson, hb, hnil]
    · simp [catchFault, ResStream.sendJson, hb, hnil]
  · refine ⟨fun hc => absurd hc (by decide), fun _ => ?_, ?_⟩
    · simp [catchFault, hb]
    · simpa [catchFault, hb] using hcount

theorem claim_C8_witness :
    (catchFault ⟨false, []⟩ "Internal server error" =
      ⟨true, [⟨500, ⟨none, "2.0", -32603, "Internal server error"⟩⟩]⟩) ∧
    (catchFault ⟨true, [⟨200, ⟨none, "2.0", 0, "ok"⟩⟩]⟩ "Internal server error" =
      ⟨true, [⟨200, ⟨none, "2.0", 0, "ok"⟩⟩]⟩) ∧
    (catchFault ⟨false, []⟩ "Internal server error").sends.length ≤ 1 :=
  ⟨(claim_C8_fault_single_send ⟨false, []⟩ "Internal server error"
      (fun _ => rfl) (by decide)).1 rfl,
   (claim_C8_fault_single_send ⟨true, [⟨200, ⟨none, "2.0", 0, "ok"⟩⟩]⟩
      "Internal server error" (fun hc => by simp at hc) (by decide)).2.1 rfl,
   (claim_C8_fault_single_send ⟨false, []⟩ "Internal server error"
      (fun _ => rfl) (by decide)).2.2⟩

/-- Claim C9: through the adapter view, after any sequence of `setHeader`
calls, `getHeader(name)` returns the value most recently set for that
name through the same view, and each of the terminal operations `json`,
`send` and `end` marks the adapter response as sent. -/
theorem claim_C9_adapter_view (r : MockRes) (ops : List (String × String))
    (n v : String) (hlast : lastSet n ops = some v) :
    (applySetHeaders r ops).getHeader n = some v ∧
    ((applySetHeaders r ops).json).headersSent = true ∧
    ((applySetHeaders r ops).send).headersSent = true ∧
    ((applySetHeaders r ops).«end»).headersSent = true := by
  refine ⟨?_, rfl, rfl, rfl⟩
  rw [applySetHeaders_getHeader, hlast]
  rfl

theorem claim_C9_witness :
    (applySetHeaders (mkMockRes ⟨[], 200, 0, 0⟩)
        [("content-type", "text/html"), ("content-type", "application/json")]).getHeader
        "content-type" = some "application/json" ∧
    ((applySetHeaders (mkMockRes ⟨[], 200, 0, 0⟩)
        [("content-type", "text/html"), ("content-type", "application/json")]).json).headersSent = true ∧
    ((applySetHeaders (mkMockRes ⟨[], 200, 0, 0⟩)
        [("content-type", "text/html"), ("content-type", "application/json")]).send).headersSent = true ∧
    ((applySetHeaders (mkMockRes ⟨[], 200, 0, 0⟩)
        [("content-type", "text/html"), ("content-type", "application/json")]).«end»).headersSent = true :=
  claim_C9_adapter_view (mkMockRes ⟨[], 200, 0, 0⟩)
    [("content-type", "text/html"), ("content-type", "application/json")]
    "content-type" "application/json" (by decide)

/-- Claim C2: for every request carrying a session id previously
registered in the session registry of a reachable state, both handler
variants hand exactly the registered transport — the identical object,
identified by its allocation index — to `handleRequest`, and the module
state is unchanged: no new server or transport is constructed. -/
theorem claim_C2_reuse_identity (env : Env) (s : St) (req : Request)
    (sid : String) (t : Transport)
    (hreach : Reachable s)
    (hsid : req.sessionId = some sid)
    (hreg : s.transports.lookup sid = some t)
    (hping : isHealthProbe req = false)
    (hkey : truthyStr env.braveApiKey = true)
    (hpost : req.method = "POST") :
    mcpHandler env s req = (.dispatch t, s) ∧
    strictHandler env s req = (.dispatch t, s) := by
  have hne : sid ≠ "" :=
    ((reachable_stInv hreach).2 (sid, t) (mem_of_lookup_some hreg)).1
  have hOpt : (req.method == "OPTIONS") = false := by rw [hpost]; decide
  have hPost : (req.method == "POST") = true := by rw [hpost]; decide
  have hTr : truthyStr req.sessionId = true := by
    rw [hsid]; simp [truthyStr, beq_false_of_ne hne]
  have hLook : s.transports.lookup (req.sessionId.getD "") = some t := by
    rw [hsid]; exact hreg
  constructor
  · simp [mcpHandler, getTransport, hOpt, hping, hkey, hTr, hLook]
  · simp [strictHandler, hOpt, hping, hkey, hPost, hTr, hLook]

theorem claim_C2_witness :
    mcpHandler wEnv wReg wReuseReq = (.dispatch wTransport, wReg) ∧
    strictHandler wEnv wReg wReuseReq = (.dispatch wTransport, wReg) :=
  claim_C2_reuse_identity wEnv wReg wReuseReq wSid wTransport reachable_wReg
    rfl (by decide) (by decide) (by decide) rfl

/-- Claim C3: in every reachable state the session registry binds each id
to at most one transport (its key list has no duplicates); a lookup of an
id is unchanged by any step that is not a registration for that very id,
so two lookups with no intervening registration for the id observe the
same transport instance; and a registration step only ever binds a fresh
id — absent from the registry, as the ids minted by `randomUUID` are —
to the very transport whose handshake-completion callback performs the
registration, a transport carrying the id generator and the callback. -/
theorem claim_C3_registry_invariants (s : St) (hreach : Reachable s) :
    ((s.transports.map Prod.fst).Nodup) ∧
    (∀ (k : String) (e : Event) (s' : St), Step s e s' →
      (∀ t : Transport, e ≠ .sessionInit t k) →
      s'.transports.lookup k = s.transports.lookup k) ∧
    (∀ (t : Transport) (newId : String) (s' : St),
      Step s (.sessionInit t newId) s' →
      t.sessionIdGeneratorEnabled = true ∧ t.hasOnSessionInitialized = true ∧
      s.transports.lookup newId = none ∧
      s'.transports.lookup newId = some t) := by
  refine ⟨(reachable_stInv hreach).1, ?_, ?_⟩
  · intro k e s' hstep hnot
    cases hstep with
    | reqPermissive env req s => rw [mcpHandler_transports]
    | reqStrict env req s => rw [strictHandler_transports]
    | sessionInit t newId s hgen hcb halloc hne hfresh =>
      have hnk : ¬(k = newId) := fun hc => by subst hc; exact (hnot t) rfl
      show (setEntry s.transports newId t).lookup k = s.transports.lookup k
      rw [lookup_setEntry, if_neg hnk]
  · intro t newId s' hstep
    cases hstep with
    | sessionInit _ _ _ hgen hcb halloc hne hfresh =>
      refine ⟨hgen, hcb, hfresh, ?_⟩
      show (setEntry s.transports newId t).lookup newId = some t
      rw [lookup_setEntry, if_pos rfl]

theorem claim_C3_witness : ((wReg.transports.map Prod.fst).Nodup) :=
  (claim_C3_registry_invariants wReg reachable_wReg).1

/-- Claim C1 is refuted on the permissive handler of `src/api/mcp.ts`
(and its duplicate `src/unnamed/part_000`): a POST carrying the
session id "stale-session-id", absent from the empty registry, with key
configured and an InitializeRequest body, is not answered with any
-32600 envelope; instead `getTransport` falls through to its final
branch and a fresh transport — session-id generator and registering
callback enabled — is constructed (the allocation index grows) and
handed to `handleRequest`, so the request can mint and register a new
session. -/
theorem claim_C1_counterexample :
    isRejection32600 (mcpHandler wEnv ⟨[], 0⟩ cexStaleReq).1 = false ∧
    (mcpHandler wEnv ⟨[], 0⟩ cexStaleReq).1 = .dispatch ⟨0, true, true⟩ ∧
    (mcpHandler wEnv ⟨[], 0⟩ cexStaleReq).2 = ⟨[], 1⟩ := by
  exact ⟨by decide, by decide, by decide⟩

/-- Claim C1 (amended): in the strict handler variant
(`src/unnamed/part_001`), every POST request carrying a nonempty
`mcp-session-id` header value that is not in the session registry is
answered with status 400 and the -32600 session-not-found envelope, the
registry unchanged and no transport constructed — even when the body is
a structurally valid InitializeRequest; the permissive variant
(`src/api/mcp.ts`, `src/unnamed/part_000`) instead falls through to
constructing a fresh transport with session-id generation and the
registering callback enabled, so such a request can create a new
session there. -/
theorem claim_C1_amended (env : Env) (s : St) (req : Request) (sid : String)
    (hsid : req.sessionId = some sid) (hne : sid ≠ "")
    (hmiss : s.transports.lookup sid = none)
    (hping : isHealthProbe req = false)
    (hkey : truthyStr env.braveApiKey = true)
    (hpost : req.method = "POST") :
    strictHandler env s req =
      (.rpcError 400
        ⟨none, "2.0", -32600,
          "Session not found. Serverless functions are stateless - please reinitialize."⟩, s) ∧
    mcpHandler env s req =
      (.dispatch ⟨s.nextTid, true, true⟩, ⟨s.transports, s.nextTid + 1⟩) := by
  have hOpt : (req.method == "OPTIONS") = false := by rw [hpost]; decide
  have hPost : (req.method == "POST") = true := by rw [hpost]; decide
  have hTr : truthyStr req.sessionId = true := by
    rw [hsid]; simp [truthyStr, beq_false_of_ne hne]
  have hLook : s.transports.lookup (req.sessionId.getD "") = none := by
    rw [hsid]; exact hmiss
  constructor
  · simp [strictHandler, hOpt, hping, hkey, hPost, hTr, hLook,
      sessionNotFoundEnvelope]
  · simp [mcpHandler, getTransport, hOpt, hping, hkey, hTr, hLook]

theorem claim_C1_amended_witness :
    strictHandler wEnv ⟨[], 0⟩ cexStaleReq =
      (.rpcError 400
        ⟨none, "2.0", -32600,
          "Session not found. Serverless functions are stateless - please reinitialize."⟩,
        ⟨[], 0⟩) ∧
    mcpHandler wEnv ⟨[], 0⟩ cexStaleReq =
      (.dispatch ⟨0, true, true⟩, ⟨[], 1⟩) :=
  claim_C1_amended wEnv ⟨[], 0⟩ cexStaleReq "stale-session-id" rfl (by decide)
    (by decide) (by decide) (by decide) rfl

end InternetMcp
